import Mathlib

/-
  Verification development for triangle.py, a minimal Vulkan "hello
  triangle" demo.  The Python source is shallowly embedded: each method
  that talks to the native Vulkan driver becomes a pure Lean function
  parameterized by a "driver" record holding the values and result codes
  the native calls would return.  Raised Python exceptions become values
  of type PyErr; Python object state becomes explicit state records.
-/

/-- Vulkan result code VK_SUCCESS (0); any other value is a failure code. -/
def SUCCESS : Int := 0

/-- Vulkan constant VK_FORMAT_UNDEFINED. -/
def FORMAT_UNDEFINED : Nat := 0

/-- Vulkan constant VK_FORMAT_B8G8R8A8_UNORM. -/
def FORMAT_B8G8R8A8_UNORM : Nat := 44

/-- Vulkan constant VK_PRESENT_MODE_IMMEDIATE_KHR. -/
def PRESENT_MODE_IMMEDIATE_KHR : Nat := 0

/-- Vulkan constant VK_PRESENT_MODE_MAILBOX_KHR. -/
def PRESENT_MODE_MAILBOX_KHR : Nat := 1

/-- Vulkan constant VK_PRESENT_MODE_FIFO_KHR. -/
def PRESENT_MODE_FIFO_KHR : Nat := 2

/-- Vulkan constant VK_SURFACE_TRANSFORM_IDENTITY_BIT_KHR. -/
def SURFACE_TRANSFORM_IDENTITY_BIT_KHR : Nat := 1

/-- Exceptions a Python method of triangle.py can raise.  The source
raises RuntimeError with a message in most checked paths; `assert`
failures are AssertionError; indexing an empty ctypes array is
IndexError; `raise` applied to a plain string (as in
TriangleApplication.draw, line 1571) raises TypeError in Python 3
because the operand is not a BaseException, which is still an exception
aborting the operation; we record the intended message via raiseStr. -/
inductive PyErr
  | runtimeError (msg : String)
  | exception (msg : String)
  | assertionError
  | typeError (msg : String)
  | indexError
  | osError (msg : String)
  | raiseStr (msg : String)
  deriving Repr, DecidableEq

/-- A ctypes c_uint object (the boxed object itself, as opposed to the
Python int obtained from its .value attribute). -/
structure CUint where
  value : Nat
  deriving Repr, DecidableEq

/-- Python equality test between a ctypes c_uint object and a Python
int, as in `format_count == 1` at triangle.py line 141.  ctypes simple
types define no __eq__ overload, so Python falls back to default object
identity, and a c_uint instance is never the same object as the int
literal: the comparison always evaluates to False. -/
def cuintEqInt (_x : CUint) (_n : Int) : Bool := false

/-- Field pair of vk.Extent2D. -/
structure Extent2D where
  width : Nat
  height : Nat
  deriving Repr, DecidableEq

/-- The fields of vk.SurfaceCapabilitiesKHR read by Swapchain.create. -/
structure SurfaceCapabilitiesKHR where
  min_image_count : Nat
  max_image_count : Nat
  current_extent : Extent2D
  supported_transforms : Nat
  current_transform : Nat
  deriving Repr, DecidableEq

/-- The fields of vk.SurfaceFormatKHR read by Swapchain.create. -/
structure SurfaceFormatKHR where
  format : Nat
  color_space : Nat
  deriving Repr, DecidableEq

/-- Values the native driver returns to the calls made inside
Swapchain.create and Swapchain.create_images.  Result fields are the
VkResult codes of the corresponding calls; list fields are the data the
driver writes through the output pointers. -/
structure SwapDriver where
  caps_result : Int
  caps : SurfaceCapabilitiesKHR
  prez_result : Int
  prez : List Nat
  window_width : Nat
  window_height : Nat
  formats_result : Int
  formats : List SurfaceFormatKHR
  create_result : Int
  new_swapchain : Nat
  get_images_result : Int
  get_images_result2 : Int
  images : List Nat
  view_results : List Int
  view_handles : List Nat
  deriving Repr, DecidableEq

/-- The mutable fields of the Swapchain Python object (swapchain, images,
views, all initialized to None in __init__) together with the
app.formats color entry written by create at line 147. -/
structure SwapchainState where
  swapchain : Option Nat
  images : Option (List Nat)
  views : Option (List Nat)
  color_format : Option Nat
  deriving Repr, DecidableEq

/-- Observable destruction and storage actions of Swapchain.create, in
program order. -/
inductive SwapEvent
  | destroyImageView (view : Nat)
  | destroySwapchainKHR (handle : Nat)
  | storeSwapchain (handle : Nat)
  deriving Repr, DecidableEq

/-- The create-info record Swapchain.create assembles at lines 151-161
(only the fields computed by the surrounding code, not the constants). -/
structure SwapchainCreateInfoKHR where
  min_image_count : Nat
  image_format : Nat
  image_color_space : Nat
  image_extent : Nat × Nat
  pre_transform : Nat
  present_mode : Nat
  deriving Repr, DecidableEq

/-- Extent selection of triangle.py lines 102-111: if the surface width
compares equal to -1 the window dimensions are used, otherwise the
capability extent.  The ctypes field access yields a nonnegative Python
int, so the -1 comparison is modelled on the embedded Int. -/
def chooseExtent (current_extent : Extent2D) (window : Nat × Nat) : Nat × Nat :=
  if (current_extent.width : Int) = -1 then window
  else (current_extent.width, current_extent.height)

/-- Present mode selection of triangle.py lines 113-118. -/
def choosePresentMode (prez : List Nat) : Nat :=
  if PRESENT_MODE_MAILBOX_KHR ∈ prez then PRESENT_MODE_MAILBOX_KHR
  else if PRESENT_MODE_IMMEDIATE_KHR ∈ prez then PRESENT_MODE_IMMEDIATE_KHR
  else PRESENT_MODE_FIFO_KHR

/-- Image count selection of triangle.py lines 120-123. -/
def swapchainImageCount (min_image_count max_image_count : Nat) : Nat :=
  let count := min_image_count + 1
  if 0 < max_image_count ∧ max_image_count < count then max_image_count else count

/-- Transform selection of triangle.py lines 125-128. -/
def chooseTransform (cap : SurfaceCapabilitiesKHR) : Nat :=
  if cap.supported_transforms &&& SURFACE_TRANSFORM_IDENTITY_BIT_KHR ≠ 0 then
    SURFACE_TRANSFORM_IDENTITY_BIT_KHR
  else cap.current_transform

/-- Color format selection of triangle.py lines 139-145.  The guard
compares the c_uint object format_count with the int 1 (see cuintEqInt)
and short-circuits, so formats[0] is read in the guard only when that
comparison succeeds; the else branch reads formats[0].format, which is
an IndexError on an empty format list. -/
def selectColorFormat (format_count : CUint) (formats : List SurfaceFormatKHR) :
    Except PyErr Nat :=
  if cuintEqInt format_count 1 then
    match formats with
    | [] => Except.error PyErr.indexError
    | f :: _ =>
      if f.format = FORMAT_UNDEFINED then Except.ok FORMAT_B8G8R8A8_UNORM
      else Except.ok f.format
  else
    match formats with
    | [] => Except.error PyErr.indexError
    | f :: _ => Except.ok f.format

/-- Swapchain.destroy_swapchain (triangle.py lines 218-222): destroy
every stored image view, then the stored swapchain handle.  When views
is still None the Python for loop raises TypeError.  The handle passed
to DestroySwapchainKHR is self.swapchain; every caller guards it to be
not None, hence the getD default is unreachable there. -/
def Swapchain.destroy_swapchain (s : SwapchainState) : Option PyErr × List SwapEvent :=
  match s.views with
  | none => (some (PyErr.typeError "argument of type NoneType is not iterable"), [])
  | some vs =>
    (none, vs.map SwapEvent.destroyImageView ++
      [SwapEvent.destroySwapchainKHR (s.swapchain.getD 0)])

/-- Image-view loop of Swapchain.create_images (triangle.py lines
187-216): each pair is the CreateImageView result and written handle for
one image; a non-success result raises, leaving that slot and all later
slots at their zero initialization. -/
def fill_views : List (Int × Nat) → Option PyErr × List Nat
  | [] => (none, [])
  | (r, h) :: rest =>
    if r = SUCCESS then
      let out := fill_views rest
      (out.1, h :: out.2)
    else
      (some (PyErr.runtimeError "Failed to create an image view."),
        0 :: List.replicate rest.length 0)

/-- Swapchain.create_images (triangle.py lines 174-216).  The first
GetSwapchainImagesKHR call reports the image count; the guard at line
179 raises only when the result is non-success AND the requested count
differs from the reported one.  The zero-filled images and views arrays
are assigned to the object before the second call, whose result is
checked by an assert. -/
def Swapchain.create_images (d : SwapDriver) (req_image_count : Nat)
    (s : SwapchainState) : Option PyErr × SwapchainState :=
  let image_count := d.images.length
  if d.get_images_result ≠ SUCCESS ∧ req_image_count ≠ image_count then
    (some (PyErr.runtimeError "Failed to get the swapchain images"), s)
  else if d.get_images_result2 ≠ SUCCESS then
    (some PyErr.assertionError,
      { s with images := some (List.replicate image_count 0),
               views := some (List.replicate image_count 0) })
  else
    let pairs := (List.range image_count).map
      (fun i => (d.view_results.getD i 0, d.view_handles.getD i 0))
    let out := fill_views pairs
    (out.1, { s with images := some d.images, views := some out.2 })

/-- Result bundle of Swapchain.create: the raised exception if any, the
final object state, the destruction and storage events in order, and the
assembled create info when control reaches it. -/
structure CreateOutcome where
  error : Option PyErr
  state : SwapchainState
  events : List SwapEvent
  info : Option SwapchainCreateInfoKHR
  deriving Repr, DecidableEq

/-- Swapchain.create (triangle.py lines 84-172), embedded over a driver
record.  Checked native failures raise RuntimeError; on
CreateSwapchainKHR success the old swapchain (if any) is destroyed, the
new handle is stored, and create_images runs; on failure the method
raises with the object state untouched since the start of the call
except for the color format written to app.formats at line 147. -/
def Swapchain.create (d : SwapDriver) (s : SwapchainState) : CreateOutcome :=
  if d.caps_result ≠ SUCCESS then
    { error := some (PyErr.runtimeError "Failed to get surface capabilities"),
      state := s, events := [], info := none }
  else if d.prez_result ≠ SUCCESS ∧ 0 < d.prez.length then
    { error := some (PyErr.runtimeError "Failed to get surface presenting mode"),
      state := s, events := [], info := none }
  else
    let swapchain_extent := chooseExtent d.caps.current_extent (d.window_width, d.window_height)
    let present_mode := choosePresentMode d.prez
    let swapchain_image_count := swapchainImageCount d.caps.min_image_count d.caps.max_image_count
    let transform := chooseTransform d.caps
    if d.formats_result ≠ SUCCESS ∧ 0 < d.formats.length then
      { error := some (PyErr.runtimeError "Failed to get surface available image format"),
        state := s, events := [], info := none }
    else
      match selectColorFormat ⟨d.formats.length⟩ d.formats with
      | Except.error e => { error := some e, state := s, events := [], info := none }
      | Except.ok color_format =>
        match d.formats with
        | [] => { error := some PyErr.indexError, state := s, events := [], info := none }
        | f0 :: _ =>
          let color_space := f0.color_space
          let create_info : SwapchainCreateInfoKHR :=
            { min_image_count := swapchain_image_count, image_format := color_format,
              image_color_space := color_space, image_extent := swapchain_extent,
              pre_transform := transform, present_mode := present_mode }
          let s1 := { s with color_format := some color_format }
          if d.create_result = SUCCESS then
            match s1.swapchain with
            | none =>
              let s2 := { s1 with swapchain := some d.new_swapchain }
              let ci := Swapchain.create_images d swapchain_image_count s2
              { error := ci.1, state := ci.2,
                events := [SwapEvent.storeSwapchain d.new_swapchain],
                info := some create_info }
            | some _ =>
              let des := Swapchain.destroy_swapchain s1
              match des.1 with
              | some e => { error := some e, state := s1, events := des.2, info := some create_info }
              | none =>
                let s2 := { s1 with swapchain := some d.new_swapchain }
                let ci := Swapchain.create_images d swapchain_image_count s2
                { error := ci.1, state := ci.2,
                  events := des.2 ++ [SwapEvent.storeSwapchain d.new_swapchain],
                  info := some create_info }
          else
            { error := some (PyErr.runtimeError "Failed to create the swapchain"),
              state := s1, events := [], info := some create_info }

/-- One entry of PhysicalDeviceMemoryProperties.memory_types, keeping
the field read by get_memory_type. -/
structure MemoryType where
  property_flags : Nat
  deriving Repr, DecidableEq

/-- Loop body of Application.get_memory_type (triangle.py lines
718-725): walk the memory types with a running index, testing the low
bit of the (shifted) bits mask and the property flags, shifting bits
right by one after every iteration. -/
def Application.get_memory_type_go (bits properties : Nat) :
    List MemoryType → Nat → Bool × Option Nat
  | [], _ => (false, none)
  | mem_t :: rest, index =>
    if bits &&& 1 = 1 then
      if mem_t.property_flags &&& properties = properties then (true, some index)
      else Application.get_memory_type_go (bits >>> 1) properties rest (index + 1)
    else Application.get_memory_type_go (bits >>> 1) properties rest (index + 1)

/-- Application.get_memory_type (triangle.py lines 718-725): returns
(True, index) for the first matching memory type, or (False, None) when
the loop finishes without a match. -/
def Application.get_memory_type (bits properties : Nat)
    (memory_types : List MemoryType) : Bool × Option Nat :=
  Application.get_memory_type_go bits properties memory_types 0

/-- The way create_triangle (line 976 and similar sites) consumes
get_memory_type: it indexes element [1] of the returned pair without
consulting element [0]. -/
def memalloc_memory_type_index (bits properties : Nat)
    (memory_types : List MemoryType) : Option Nat :=
  (Application.get_memory_type bits properties memory_types).2

/-- Driver values for the native calls made by TriangleApplication.draw
(triangle.py lines 1507-1571), in call order. -/
structure DrawDriver where
  acquire_result : Int
  image_index : Nat
  submit_post_result : Int
  wait_idle_result : Int
  submit_draw_result : Int
  present_result : Int
  deriving Repr, DecidableEq

/-- TriangleApplication.draw (triangle.py lines 1507-1571):
AcquireNextImageKHR failure raises Exception; the two QueueSubmit calls
and the QueueWaitIdle are guarded by asserts; QueuePresentKHR failure
executes a bare string raise (TypeError in Python 3, still an
exception). -/
def TriangleApplication.draw (d : DrawDriver) : Except PyErr Unit :=
  if d.acquire_result ≠ SUCCESS then
    Except.error (PyErr.exception "Could not aquire next image from swapchain")
  else if d.submit_post_result ≠ SUCCESS then Except.error PyErr.assertionError
  else if d.wait_idle_result ≠ SUCCESS then Except.error PyErr.assertionError
  else if d.submit_draw_result ≠ SUCCESS then Except.error PyErr.assertionError
  else if d.present_result ≠ SUCCESS then
    Except.error (PyErr.raiseStr "Could not render the scene")
  else Except.ok ()

/-- TriangleApplication.create_descriptor_pool (triangle.py lines
1295-1316): the CreateDescriptorPool result code is bound to a local
variable and never tested; the pool handle is stored unconditionally and
the method cannot raise. -/
def TriangleApplication.create_descriptor_pool (create_pool_result : Int)
    (pool : Nat) : Option PyErr × Option Nat :=
  let _result := create_pool_result
  (none, some pool)

/-- Driver values for TriangleApplication.create_descriptor_set_layout
(triangle.py lines 1137-1176). -/
structure DSLDriver where
  create_layout_result : Int
  ds_layout : Nat
  create_pipeline_layout_result : Int
  pipeline_layout : Nat
  deriving Repr, DecidableEq

/-- Fields written by create_descriptor_set_layout. -/
structure DSLState where
  pipeline_layout : Nat
  descriptor_set_layout : Nat
  deriving Repr, DecidableEq

/-- TriangleApplication.create_descriptor_set_layout (triangle.py lines
1137-1176): CreateDescriptorSetLayout is checked and raises on failure;
the CreatePipelineLayout result at line 1172 is bound but never tested,
and both handles are stored. -/
def TriangleApplication.create_descriptor_set_layout (d : DSLDriver) :
    Except PyErr DSLState :=
  if d.create_layout_result ≠ SUCCESS then
    Except.error (PyErr.runtimeError "Could not create descriptor set layout")
  else
    let _result := d.create_pipeline_layout_result
    Except.ok { pipeline_layout := d.pipeline_layout,
                descriptor_set_layout := d.ds_layout }

/-- Pipeline creation outcome of TriangleApplication.create_pipeline
(triangle.py lines 1288-1293): the single CreateGraphicsPipelines call
either succeeds, storing the one returned handle, or raises. -/
def TriangleApplication.create_pipeline (create_pipelines_result : Int)
    (pipeline : Nat) : Except PyErr Nat :=
  if create_pipelines_result ≠ SUCCESS then
    Except.error (PyErr.runtimeError "Failed to create the graphics pipeline")
  else Except.ok pipeline

/-- Initialization and startup steps of the program, named after the
methods invoked by Application.__init__ (lines 784-831),
TriangleApplication.__init__ (lines 1609-1643) and main (lines
1669-1674). -/
inductive InitStep
  | createWindow
  | createInstance
  | swapchainObjectCtor
  | createDevice
  | createCommandPool
  | createSetupBuffer
  | swapchainCreate
  | createCommandBuffers
  | createDepthStencil
  | createRenderpass
  | createPipelineCache
  | createFramebuffers
  | flushSetupBuffer
  | windowShow
  | createSemaphores
  | createTriangle
  | createUniformBuffers
  | createDescriptorSetLayout
  | createPipeline
  | createDescriptorPool
  | createDescriptorSet
  | initCommandBuffers
  | startRenderLoop
  deriving Repr, DecidableEq

/-- Step sequence of Application.__init__ (triangle.py lines 784-831):
the platform window is constructed at line 796, before any Vulkan call;
the Swapchain object constructed at line 817 only wraps the surface,
while the Vulkan swapchain itself is created by swapchain.create() at
line 822, after the device exists. -/
def Application.init_trace : List InitStep :=
  [InitStep.createWindow, InitStep.createInstance, InitStep.swapchainObjectCtor,
   InitStep.createDevice, InitStep.createCommandPool, InitStep.createSetupBuffer,
   InitStep.swapchainCreate, InitStep.createCommandBuffers, InitStep.createDepthStencil,
   InitStep.createRenderpass, InitStep.createPipelineCache, InitStep.createFramebuffers,
   InitStep.flushSetupBuffer, InitStep.windowShow]

/-- Step sequence of TriangleApplication.__init__ (triangle.py lines
1609-1643): the Application initializer runs first, then the
triangle-specific creation methods in source order. -/
def TriangleApplication.init_trace : List InitStep :=
  Application.init_trace ++
  [InitStep.createSemaphores, InitStep.createTriangle, InitStep.createUniformBuffers,
   InitStep.createDescriptorSetLayout, InitStep.createPipeline,
   InitStep.createDescriptorPool, InitStep.createDescriptorSet,
   InitStep.initCommandBuffers]

/-- Step sequence of main (triangle.py lines 1669-1674): the full
TriangleApplication initialization completes before run() schedules the
render coroutine on the asyncio loop. -/
def main_trace : List InitStep :=
  TriangleApplication.init_trace ++ [InitStep.startRenderLoop]

/-- A native API call made by the program: CreateGraphicsPipelines is
tracked with its createInfoCount argument, every other call by name. -/
inductive ApiCall
  | createGraphicsPipelines (create_info_count : Nat)
  | c (name : String)
  deriving Repr, DecidableEq

/-- Calls of Application.create_instance (lines 234-283, validation
disabled so no debug callback is installed). -/
def create_instance_calls : List ApiCall := [ApiCall.c "CreateInstance"]

/-- Modelled from the spec: the platform BaseSwapchain constructor
(win32.py / xlib.py, not under src/) creates the native window surface
when the Swapchain object is built at line 817. -/
def swapchain_ctor_calls : List ApiCall := [ApiCall.c "CreateSurfaceKHR"]

/-- Calls of Application.create_device (lines 285-389); the surface
support query runs once per queue family probed until a graphics and
present capable family is found. -/
def create_device_calls (probed_families : Nat) : List ApiCall :=
  [ApiCall.c "EnumeratePhysicalDevices", ApiCall.c "EnumeratePhysicalDevices",
   ApiCall.c "GetPhysicalDeviceQueueFamilyProperties",
   ApiCall.c "GetPhysicalDeviceQueueFamilyProperties"] ++
  List.replicate probed_families (ApiCall.c "GetPhysicalDeviceSurfaceSupportKHR") ++
  [ApiCall.c "CreateDevice", ApiCall.c "GetPhysicalDeviceMemoryProperties",
   ApiCall.c "GetDeviceQueue"]

/-- Calls of Application.create_command_pool (lines 394-406). -/
def create_command_pool_calls : List ApiCall := [ApiCall.c "CreateCommandPool"]

/-- Calls of Application.create_setup_buffer (lines 408-432) when the
previous setup buffer has already been freed, as at every call site. -/
def create_setup_buffer_calls : List ApiCall :=
  [ApiCall.c "AllocateCommandBuffers", ApiCall.c "BeginCommandBuffer"]

/-- Calls of Application.set_image_layout (lines 661-716). -/
def set_image_layout_calls : List ApiCall := [ApiCall.c "CmdPipelineBarrier"]

/-- Calls of Swapchain.create together with create_images (lines
84-216): old_views is the number of image views destroyed with a
previous swapchain (none on first creation), image_count the number of
swapchain images reported by the driver. -/
def swapchain_create_calls (old_views : Option Nat) (image_count : Nat) : List ApiCall :=
  [ApiCall.c "GetPhysicalDeviceSurfaceCapabilitiesKHR",
   ApiCall.c "GetPhysicalDeviceSurfacePresentModesKHR",
   ApiCall.c "GetPhysicalDeviceSurfacePresentModesKHR",
   ApiCall.c "GetPhysicalDeviceSurfaceFormatsKHR",
   ApiCall.c "GetPhysicalDeviceSurfaceFormatsKHR",
   ApiCall.c "CreateSwapchainKHR"] ++
  (match old_views with
   | none => []
   | some k => List.replicate k (ApiCall.c "DestroyImageView") ++
       [ApiCall.c "DestroySwapchainKHR"]) ++
  [ApiCall.c "GetSwapchainImagesKHR", ApiCall.c "GetSwapchainImagesKHR"] ++
  (List.range image_count).flatMap
    (fun _ => set_image_layout_calls ++ [ApiCall.c "CreateImageView"])

/-- Calls of Application.create_command_buffers (lines 434-463). -/
def create_command_buffers_calls : List ApiCall :=
  [ApiCall.c "AllocateCommandBuffers", ApiCall.c "AllocateCommandBuffers"]

/-- Calls of Application.create_depth_stencil (lines 465-547);
probed_formats is the number of depth formats probed until a supported
one is found. -/
def create_depth_stencil_calls (probed_formats : Nat) : List ApiCall :=
  List.replicate probed_formats (ApiCall.c "GetPhysicalDeviceFormatProperties") ++
  [ApiCall.c "CreateImage", ApiCall.c "GetImageMemoryRequirements",
   ApiCall.c "AllocateMemory", ApiCall.c "BindImageMemory"] ++
  set_image_layout_calls ++ [ApiCall.c "CreateImageView"]

/-- Calls of Application.create_renderpass (lines 549-598). -/
def create_renderpass_calls : List ApiCall := [ApiCall.c "CreateRenderPass"]

/-- Calls of Application.create_pipeline_cache (lines 600-611). -/
def create_pipeline_cache_calls : List ApiCall := [ApiCall.c "CreatePipelineCache"]

/-- Calls of Application.create_framebuffers (lines 613-636), one per
swapchain image view. -/
def create_framebuffers_calls (image_count : Nat) : List ApiCall :=
  List.replicate image_count (ApiCall.c "CreateFramebuffer")

/-- Calls of Application.flush_setup_buffer (lines 638-659). -/
def flush_setup_buffer_calls : List ApiCall :=
  [ApiCall.c "EndCommandBuffer", ApiCall.c "QueueSubmit",
   ApiCall.c "QueueWaitIdle", ApiCall.c "FreeCommandBuffers"]

/-- Calls of Application.__init__ (lines 784-831) in source order. -/
def application_init_calls (probed_families probed_formats image_count : Nat) :
    List ApiCall :=
  create_instance_calls ++ swapchain_ctor_calls ++
  create_device_calls probed_families ++ create_command_pool_calls ++
  create_setup_buffer_calls ++ swapchain_create_calls none image_count ++
  create_command_buffers_calls ++ create_depth_stencil_calls probed_formats ++
  create_renderpass_calls ++ create_pipeline_cache_calls ++
  create_framebuffers_calls image_count ++ flush_setup_buffer_calls

/-- Calls of Application.load_shader (lines 727-754). -/
def load_shader_calls : List ApiCall := [ApiCall.c "CreateShaderModule"]

/-- Calls of TriangleApplication.create_semaphores (lines 889-904). -/
def create_semaphores_calls : List ApiCall :=
  [ApiCall.c "CreateSemaphore", ApiCall.c "CreateSemaphore"]

/-- Calls of TriangleApplication.create_triangle (lines 933-1097):
staging and device-local vertex buffers, staging and device-local index
buffers, the copy command buffer, and the staging cleanup. -/
def create_triangle_calls : List ApiCall :=
  [ApiCall.c "CreateBuffer", ApiCall.c "GetBufferMemoryRequirements",
   ApiCall.c "AllocateMemory", ApiCall.c "MapMemory", ApiCall.c "UnmapMemory",
   ApiCall.c "BindBufferMemory",
   ApiCall.c "CreateBuffer", ApiCall.c "GetBufferMemoryRequirements",
   ApiCall.c "AllocateMemory", ApiCall.c "BindBufferMemory",
   ApiCall.c "CreateBuffer", ApiCall.c "GetBufferMemoryRequirements",
   ApiCall.c "AllocateMemory", ApiCall.c "MapMemory", ApiCall.c "UnmapMemory",
   ApiCall.c "BindBufferMemory",
   ApiCall.c "CreateBuffer", ApiCall.c "GetBufferMemoryRequirements",
   ApiCall.c "AllocateMemory", ApiCall.c "BindBufferMemory",
   ApiCall.c "AllocateCommandBuffers", ApiCall.c "BeginCommandBuffer",
   ApiCall.c "CmdCopyBuffer", ApiCall.c "CmdCopyBuffer",
   ApiCall.c "EndCommandBuffer", ApiCall.c "QueueSubmit",
   ApiCall.c "QueueWaitIdle", ApiCall.c "FreeCommandBuffers",
   ApiCall.c "DestroyBuffer", ApiCall.c "FreeMemory",
   ApiCall.c "DestroyBuffer", ApiCall.c "FreeMemory"]

/-- Calls of TriangleApplication.update_uniform_buffers (lines
1467-1486). -/
def update_uniform_buffers_calls : List ApiCall :=
  [ApiCall.c "MapMemory", ApiCall.c "UnmapMemory"]

/-- Calls of TriangleApplication.create_uniform_buffers (lines
1099-1135), which finishes by calling update_uniform_buffers. -/
def create_uniform_buffers_calls : List ApiCall :=
  [ApiCall.c "CreateBuffer", ApiCall.c "GetBufferMemoryRequirements",
   ApiCall.c "AllocateMemory", ApiCall.c "BindBufferMemory"] ++
  update_uniform_buffers_calls

/-- Calls of TriangleApplication.create_descriptor_set_layout (lines
1137-1176). -/
def create_descriptor_set_layout_calls : List ApiCall :=
  [ApiCall.c "CreateDescriptorSetLayout", ApiCall.c "CreatePipelineLayout"]

/-- Calls of TriangleApplication.create_pipeline (lines 1178-1293): the
two shader modules are compiled while assembling the shader stages, then
the single CreateGraphicsPipelines call is issued with a create-info
count of 1. -/
def create_pipeline_calls : List ApiCall :=
  load_shader_calls ++ load_shader_calls ++ [ApiCall.createGraphicsPipelines 1]

/-- Calls of TriangleApplication.create_descriptor_pool (lines
1295-1316). -/
def create_descriptor_pool_calls : List ApiCall := [ApiCall.c "CreateDescriptorPool"]

/-- Calls of TriangleApplication.create_descriptor_set (lines
1318-1345). -/
def create_descriptor_set_calls : List ApiCall :=
  [ApiCall.c "AllocateDescriptorSets", ApiCall.c "UpdateDescriptorSets"]

/-- Calls of TriangleApplication.init_command_buffers (lines 1347-1465):
the post-present barrier buffers are recorded first, then the draw
buffers, one of each per swapchain image. -/
def init_command_buffers_calls (image_count : Nat) : List ApiCall :=
  (List.range image_count).flatMap
    (fun _ => [ApiCall.c "BeginCommandBuffer", ApiCall.c "CmdPipelineBarrier",
               ApiCall.c "EndCommandBuffer"]) ++
  (List.range image_count).flatMap
    (fun _ => [ApiCall.c "BeginCommandBuffer", ApiCall.c "CmdBeginRenderPass",
               ApiCall.c "CmdSetViewport", ApiCall.c "CmdSetScissor",
               ApiCall.c "CmdBindDescriptorSets", ApiCall.c "CmdBindPipeline",
               ApiCall.c "CmdBindVertexBuffers", ApiCall.c "CmdBindIndexBuffer",
               ApiCall.c "CmdDrawIndexed", ApiCall.c "CmdEndRenderPass",
               ApiCall.c "CmdPipelineBarrier", ApiCall.c "EndCommandBuffer"])

/-- Calls of TriangleApplication.__init__ (lines 1609-1643). -/
def triangle_init_calls (probed_families probed_formats image_count : Nat) :
    List ApiCall :=
  application_init_calls probed_families probed_formats image_count ++
  create_semaphores_calls ++ create_triangle_calls ++
  create_uniform_buffers_calls ++ create_descriptor_set_layout_calls ++
  create_pipeline_calls ++ create_descriptor_pool_calls ++
  create_descriptor_set_calls ++ init_command_buffers_calls image_count

/-- Calls of TriangleApplication.draw (lines 1507-1571) on its success
path. -/
def draw_method_calls : List ApiCall :=
  [ApiCall.c "AcquireNextImageKHR", ApiCall.c "QueueSubmit",
   ApiCall.c "QueueWaitIdle", ApiCall.c "QueueSubmit",
   ApiCall.c "QueuePresentKHR"]

/-- Calls of one iteration of TriangleApplication.render (lines
1585-1604): a device-idle wait on each side of the draw. -/
def render_iteration_calls : List ApiCall :=
  [ApiCall.c "DeviceWaitIdle"] ++ draw_method_calls ++ [ApiCall.c "DeviceWaitIdle"]

/-- Calls of TriangleApplication.resize_display (lines 756-782 and
1488-1498): old_views and old_framebuffers count the resources of the
replaced swapchain, image_count the images of the recreated one. -/
def resize_display_calls (old_views old_framebuffers probed_formats image_count : Nat) :
    List ApiCall :=
  create_setup_buffer_calls ++ swapchain_create_calls (some old_views) image_count ++
  [ApiCall.c "DestroyImageView", ApiCall.c "DestroyImage", ApiCall.c "FreeMemory"] ++
  create_depth_stencil_calls probed_formats ++
  List.replicate old_framebuffers (ApiCall.c "DestroyFramebuffer") ++
  create_framebuffers_calls image_count ++ flush_setup_buffer_calls ++
  [ApiCall.c "FreeCommandBuffers", ApiCall.c "FreeCommandBuffers"] ++
  create_command_buffers_calls ++ init_command_buffers_calls image_count ++
  [ApiCall.c "QueueWaitIdle", ApiCall.c "DeviceWaitIdle"] ++
  update_uniform_buffers_calls

/-- Native calls of a complete program run: initialization, then frames
of the render loop, then any display resizes.  Each resize is given by
its (old view count, old framebuffer count, probed depth formats, new
image count) tuple. -/
def program_calls (probed_families probed_formats image_count frames : Nat)
    (resizes : List (Nat × Nat × Nat × Nat)) : List ApiCall :=
  triangle_init_calls probed_families probed_formats image_count ++
  (List.range frames).flatMap (fun _ => render_iteration_calls) ++
  resizes.flatMap (fun r => resize_display_calls r.1 r.2.1 r.2.2.1 r.2.2.2)

/-- Recognizer for graphics pipeline creation calls. -/
def isCreateGraphicsPipelines : ApiCall → Bool
  | ApiCall.createGraphicsPipelines _ => true
  | _ => false

/-- A vertex as uploaded by create_triangle: a 3-component position and
a 3-component color (the c_float values used are exact integers). -/
structure Vertex where
  pos : Int × Int × Int
  col : Int × Int × Int
  deriving Repr, DecidableEq

/-- The vertex array of create_triangle (triangle.py lines 942-946). -/
def vertices_data : List Vertex :=
  [{ pos := (1, 1, 0), col := (1, 0, 0) },
   { pos := (-1, 1, 0), col := (0, 1, 0) },
   { pos := (0, -1, 0), col := (0, 0, 1) }]

/-- The index array of create_triangle (triangle.py line 951). -/
def indices_data : List Nat := [0, 1, 2]

/-- Commands recorded into command buffers by init_command_buffers. -/
inductive RecordedCmd
  | beginCommandBuffer
  | pipelineBarrier
  | endCommandBuffer
  | beginRenderPass (framebuffer : Nat)
  | setViewport
  | setScissor
  | bindDescriptorSets
  | bindPipeline
  | bindVertexBuffers
  | bindIndexBuffer
  | drawIndexed (index_count instance_count first_index : Nat)
      (vertex_offset : Int) (first_instance : Nat)
  | endRenderPass
  deriving Repr, DecidableEq

/-- Commands recorded into one post-present buffer (triangle.py lines
1369-1398). -/
def post_present_commands : List RecordedCmd :=
  [RecordedCmd.beginCommandBuffer, RecordedCmd.pipelineBarrier,
   RecordedCmd.endCommandBuffer]

/-- Commands recorded into the draw buffer of one framebuffer
(triangle.py lines 1400-1465); the CmdDrawIndexed arguments 3, 1, 0, 0,
1 are those of line 1431. -/
def draw_buffer_commands (framebuffer : Nat) : List RecordedCmd :=
  [RecordedCmd.beginCommandBuffer, RecordedCmd.beginRenderPass framebuffer,
   RecordedCmd.setViewport, RecordedCmd.setScissor,
   RecordedCmd.bindDescriptorSets, RecordedCmd.bindPipeline,
   RecordedCmd.bindVertexBuffers, RecordedCmd.bindIndexBuffer,
   RecordedCmd.drawIndexed 3 1 0 0 1, RecordedCmd.endRenderPass,
   RecordedCmd.pipelineBarrier, RecordedCmd.endCommandBuffer]

/-- TriangleApplication.init_command_buffers (triangle.py lines
1347-1465): all commands recorded across the post-present and draw
buffers, one of each per swapchain image. -/
def TriangleApplication.init_command_buffers (image_count : Nat) : List RecordedCmd :=
  (List.range image_count).flatMap (fun _ => post_present_commands) ++
  (List.range image_count).flatMap draw_buffer_commands

/-- Command predicate: a command is either not a draw, or an indexed
draw of exactly 3 indices and 1 instance. -/
def draw_ok : RecordedCmd → Bool
  | RecordedCmd.drawIndexed index_count instance_count _ _ _ =>
    index_count == 3 && instance_count == 1
  | _ => true

/-- Recognizer for indexed draw commands. -/
def isDrawIndexed : RecordedCmd → Bool
  | RecordedCmd.drawIndexed _ _ _ _ _ => true
  | _ => false

/-- Events of the render coroutine observable on the Vulkan device and
the application state. -/
inductive RenderEvent
  | deviceWaitIdle
  | draw
  | renderingDoneSet
  deriving Repr, DecidableEq

/-- TriangleApplication.render (triangle.py lines 1574-1607), indexed by
the number of loop iterations executed while self.running is true: each
iteration waits for device idle, draws once, and waits again (the frame
counter and window title update make no device call); once running is
false the loop exits and rendering_done is set. -/
def TriangleApplication.render : Nat → List RenderEvent
  | 0 => [RenderEvent.renderingDoneSet]
  | Nat.succ k =>
    RenderEvent.deviceWaitIdle :: RenderEvent.draw :: RenderEvent.deviceWaitIdle ::
      TriangleApplication.render k

/-- Modelled from the spec: the xmath module (perspective, rotate,
translate, Mat4) is not under src/.  A matrix is represented as the
sequence of primitive transforms composed to build it, which is what the
claim speaks about; angles, axes and distances are exact rationals. -/
inductive PrimTransform
  | rotation (axis : ℚ × ℚ × ℚ) (angle : ℚ)
  | translation (v : ℚ × ℚ × ℚ)
  | perspectiveProj (fovy aspect znear zfar : ℚ)
  deriving Repr, DecidableEq

/-- Modelled from the spec: a Mat4 value as the list of primitive
transforms composed, in application order, to produce it. -/
abbrev XMat := List PrimTransform

/-- Modelled from the spec: xmath.perspective builds a perspective
projection matrix from field of view, aspect ratio and depth range. -/
def Xmath.perspective (fovy aspect znear zfar : ℚ) : XMat :=
  [PrimTransform.perspectiveProj fovy aspect znear zfar]

/-- Modelled from the spec: xmath.rotate(m, angle, axis) composes the
matrix m (the identity when m is None) with a rotation of angle degrees
about axis. -/
def Xmath.rotate (m : Option XMat) (angle : ℚ) (axis : ℚ × ℚ × ℚ) : XMat :=
  m.getD [] ++ [PrimTransform.rotation axis angle]

/-- Modelled from the spec: xmath.translate(m, v) composes the matrix m
(the identity when m is None) with a translation by v. -/
def Xmath.translate (m : Option XMat) (v : ℚ × ℚ × ℚ) : XMat :=
  m.getD [] ++ [PrimTransform.translation v]

/-- TriangleApplication.update_uniform_buffers (triangle.py lines
1467-1486): computes the projection matrix from the current window
dimensions, the model matrix by rotating about the x, then y, then z
axes by the components of self.rotation, and the view matrix as a
translation by (0, 0, self.zoom), and writes these three Mat4 values
into the mapped uniform buffer memory. -/
def TriangleApplication.update_uniform_buffers (width height : ℚ)
    (rotation : ℚ × ℚ × ℚ) (zoom : ℚ) : List XMat :=
  let projection := Xmath.perspective 60 (width / height) (1 / 10) 256
  let mod_mat := Xmath.rotate none rotation.1 (1, 0, 0)
  let mod_mat2 := Xmath.rotate (some mod_mat) rotation.2.1 (0, 1, 0)
  let model := Xmath.rotate (some mod_mat2) rotation.2.2 (0, 0, 1)
  let view := Xmath.translate none (0, 0, zoom)
  [projection, model, view]

/-- Initial scene zoom, Application.__init__ line 787 (-2.5). -/
def initial_zoom : ℚ := -(5 / 2)

/-- Initial scene rotation, Application.__init__ line 788 (a zero
initialized c_float*3 array). -/
def initial_rotation : ℚ × ℚ × ℚ := (0, 0, 0)

/-- Helper: countP of a replicated element whose predicate is false. -/
theorem countP_replicate_zero {α : Type} (p : α → Bool) (x : α) (h : p x = false) :
    ∀ k, (List.replicate k x).countP p = 0 := by
  intro k
  induction k with
  | zero => rfl
  | succ k ih => simp [List.replicate_succ, List.countP_cons, h, ih]

/-- Helper: countP over a flatMap whose blocks each contribute a fixed
count. -/
theorem countP_flatMap_const {α β : Type} (p : β → Bool) (g : α → List β) (c : Nat)
    (h : ∀ a, (g a).countP p = c) :
    ∀ l : List α, (l.flatMap g).countP p = l.length * c := by
  intro l
  induction l with
  | nil => simp
  | cons a l ih =>
    simp [List.flatMap_cons, List.countP_append, h, ih, Nat.succ_mul, Nat.add_comm]

/-- Helper: all over a flatMap each of whose blocks satisfies the
predicate. -/
theorem all_flatMap_of {α β : Type} (p : β → Bool) (g : α → List β)
    (h : ∀ a, (g a).all p = true) :
    ∀ l : List α, (l.flatMap g).all p = true := by
  intro l
  induction l with
  | nil => simp
  | cons a l ih => simp [List.flatMap_cons, List.all_append, h, ih]

/-- Helper: the color format selection always lands in the else branch
and takes the first format of a nonempty list. -/
theorem selectColorFormat_cons (fc : CUint) (f : SurfaceFormatKHR)
    (rest : List SurfaceFormatKHR) :
    selectColorFormat fc (f :: rest) = Except.ok f.format := by
  simp [selectColorFormat, cuintEqInt]

/-- C2: program startup proceeds in the order window → instance/device →
swapchain → pipeline → per-frame draw: in the combined trace of
Application.__init__, TriangleApplication.__init__ and main, the window
creation comes first, then instance creation, then device creation, then
the Vulkan swapchain creation, then the graphics pipeline creation, and
the render loop starts last, after all of them. -/
theorem c2_startup_order :
    main_trace.indexOf InitStep.createWindow = 0 ∧
    main_trace.indexOf InitStep.createWindow < main_trace.indexOf InitStep.createInstance ∧
    main_trace.indexOf InitStep.createInstance < main_trace.indexOf InitStep.createDevice ∧
    main_trace.indexOf InitStep.createDevice < main_trace.indexOf InitStep.swapchainCreate ∧
    main_trace.indexOf InitStep.swapchainCreate < main_trace.indexOf InitStep.createPipeline ∧
    main_trace.indexOf InitStep.createPipeline < main_trace.indexOf InitStep.startRenderLoop ∧
    main_trace.getLast? = some InitStep.startRenderLoop := by
  decide

/-- C3: the uploaded triangle consists of exactly the three vertices
with positions (1,1,0), (-1,1,0), (0,-1,0) colored red, green and blue,
with index list (0, 1, 2); and for every swapchain image count, every
indexed draw command recorded by init_command_buffers draws exactly 3
indices of 1 instance (and there is one such draw per image). -/
theorem c3_triangle_data :
    vertices_data =
      [{ pos := (1, 1, 0), col := (1, 0, 0) },
       { pos := (-1, 1, 0), col := (0, 1, 0) },
       { pos := (0, -1, 0), col := (0, 0, 1) }] ∧
    indices_data = [0, 1, 2] ∧
    (∀ image_count,
      (TriangleApplication.init_command_buffers image_count).all draw_ok = true) ∧
    (∀ image_count,
      (TriangleApplication.init_command_buffers image_count).countP isDrawIndexed =
        image_count) := by
  refine ⟨rfl, rfl, ?_, ?_⟩
  · intro n
    unfold TriangleApplication.init_command_buffers
    rw [List.all_append,
      all_flatMap_of draw_ok (fun _ => post_present_commands) (fun _ => rfl),
      all_flatMap_of draw_ok draw_buffer_commands (fun _ => rfl)]
    rfl
  · intro n
    unfold TriangleApplication.init_command_buffers
    rw [List.countP_append,
      countP_flatMap_const isDrawIndexed (fun _ => post_present_commands) 0 (fun _ => rfl),
      countP_flatMap_const isDrawIndexed draw_buffer_commands 1 (fun _ => rfl)]
    simp

/-- C6: update_uniform_buffers writes exactly three matrices: a
perspective projection built from the current window dimensions, a model
matrix composing the rotations about the x, y and z axes by the three
rotation components in that order, and a view matrix translating by
(0, 0, zoom). -/
theorem c6_uniform_transform :
    ∀ (width height r0 r1 r2 zoom : ℚ),
      TriangleApplication.update_uniform_buffers width height (r0, r1, r2) zoom =
        [Xmath.perspective 60 (width / height) (1 / 10) 256,
         [PrimTransform.rotation (1, 0, 0) r0, PrimTransform.rotation (0, 1, 0) r1,
          PrimTransform.rotation (0, 0, 1) r2],
         [PrimTransform.translation (0, 0, zoom)]] ∧
      (TriangleApplication.update_uniform_buffers width height (r0, r1, r2) zoom).length
        = 3 := by
  intro width height r0 r1 r2 zoom
  exact ⟨rfl, rfl⟩

/-- C9: the c_uint-versus-int guard of the format fallback never fires,
so whenever the driver reports at least one surface format the selected
color format is the format field of the first returned surface format;
in particular a single-entry FORMAT_UNDEFINED response selects
FORMAT_UNDEFINED rather than the FORMAT_B8G8R8A8_UNORM fallback. -/
theorem c9_format_fallback_dead :
    (∀ fc : CUint, cuintEqInt fc 1 = false) ∧
    (∀ (fc : CUint) (f : SurfaceFormatKHR) (rest : List SurfaceFormatKHR),
      selectColorFormat fc (f :: rest) = Except.ok f.format) ∧
    selectColorFormat ⟨1⟩ [{ format := FORMAT_UNDEFINED, color_space := 0 }] =
      Except.ok FORMAT_UNDEFINED ∧
    selectColorFormat ⟨1⟩ [{ format := FORMAT_UNDEFINED, color_space := 0 }] ≠
      Except.ok FORMAT_B8G8R8A8_UNORM := by
  refine ⟨fun _ => rfl, fun fc f rest => selectColorFormat_cons fc f rest, ?_, ?_⟩
  · exact selectColorFormat_cons _ _ _
  · intro h
    simp [selectColorFormat, cuintEqInt, FORMAT_UNDEFINED, FORMAT_B8G8R8A8_UNORM] at h

/-- C10: Swapchain.create prefers MAILBOX when present, then IMMEDIATE,
then FIFO; and requests min_image_count + 1 images, reduced to
max_image_count whenever that maximum is positive and smaller. -/
theorem c10_present_mode_image_count :
    (∀ prez : List Nat,
      (PRESENT_MODE_MAILBOX_KHR ∈ prez →
        choosePresentMode prez = PRESENT_MODE_MAILBOX_KHR) ∧
      (PRESENT_MODE_MAILBOX_KHR ∉ prez → PRESENT_MODE_IMMEDIATE_KHR ∈ prez →
        choosePresentMode prez = PRESENT_MODE_IMMEDIATE_KHR) ∧
      (PRESENT_MODE_MAILBOX_KHR ∉ prez → PRESENT_MODE_IMMEDIATE_KHR ∉ prez →
        choosePresentMode prez = PRESENT_MODE_FIFO_KHR)) ∧
    (∀ min_count max_count : Nat,
      (0 < max_count → max_count < min_count + 1 →
        swapchainImageCount min_count max_count = max_count) ∧
      (max_count = 0 ∨ min_count + 1 ≤ max_count →
        swapchainImageCount min_count max_count = min_count + 1)) := by
  constructor
  · intro prez
    refine ⟨fun h => ?_, fun h1 h2 => ?_, fun h1 h2 => ?_⟩
    · simp [choosePresentMode, h]
    · simp [choosePresentMode, h1, h2]
    · simp [choosePresentMode, h1, h2]
  · intro min_count max_count
    constructor
    · intro h1 h2
      simp only [swapchainImageCount]
      rw [if_pos ⟨h1, h2⟩]
    · intro h
      simp only [swapchainImageCount]
      rw [if_neg (by omega)]

/-- Witness for c10_present_mode_image_count at concrete inputs: a
present-mode list containing MAILBOX, and capability counts 1 and 1. -/
theorem c10_witness :
    choosePresentMode [1] = PRESENT_MODE_MAILBOX_KHR ∧
    swapchainImageCount 1 1 = 1 :=
  ⟨(c10_present_mode_image_count.1 [1]).1 (by decide),
   (c10_present_mode_image_count.2 1 1).1 (by decide) (by decide)⟩

/-- Helper: the loop bit test on the shifted mask coincides with testBit
on the original mask. -/
theorem testBit_iff_and_one (bits j : Nat) :
    Nat.testBit bits j = true ↔ (bits >>> j) &&& 1 = 1 := by
  rw [Nat.testBit_to_div_mod, Nat.and_one_is_mod, Nat.shiftRight_eq_div_pow]
  simp

/-- Helper: when no memory type qualifies, the get_memory_type loop
falls through to (False, None). -/
theorem get_memory_type_go_none (properties : Nat) :
    ∀ (mts : List MemoryType) (bits i0 : Nat),
      (∀ j, j < mts.length →
        ¬((bits >>> j) &&& 1 = 1 ∧
          (mts.getD j ⟨0⟩).property_flags &&& properties = properties)) →
      Application.get_memory_type_go bits properties mts i0 = (false, none) := by
  intro mts
  induction mts with
  | nil => intro bits i0 _; rfl
  | cons mem_t rest ih =>
    intro bits i0 h
    have h0 := h 0 (by simp)
    simp only [Nat.shiftRight_zero, List.getD_cons_zero] at h0
    have hrec : ∀ j, j < rest.length →
        ¬(((bits >>> 1) >>> j) &&& 1 = 1 ∧
          (rest.getD j ⟨0⟩).property_flags &&& properties = properties) := by
      intro j hj hc
      apply h (j + 1) (by simpa using Nat.succ_lt_succ hj)
      refine ⟨?_, by simpa using hc.2⟩
      rw [show j + 1 = 1 + j by omega, Nat.shiftRight_add]
      exact hc.1
    unfold Application.get_memory_type_go
    by_cases hb : bits &&& 1 = 1
    · have hf : ¬(mem_t.property_flags &&& properties = properties) :=
        fun hf => h0 ⟨hb, hf⟩
      rw [if_pos hb, if_neg hf]
      exact ih (bits >>> 1) (i0 + 1) hrec
    · rw [if_neg hb]
      exact ih (bits >>> 1) (i0 + 1) hrec

/-- Helper: the get_memory_type loop returns the running index of the
first qualifying memory type. -/
theorem get_memory_type_go_found (properties : Nat) :
    ∀ (mts : List MemoryType) (bits i0 k : Nat),
      k < mts.length →
      (bits >>> k) &&& 1 = 1 →
      (mts.getD k ⟨0⟩).property_flags &&& properties = properties →
      (∀ j, j < k →
        ¬((bits >>> j) &&& 1 = 1 ∧
          (mts.getD j ⟨0⟩).property_flags &&& properties = properties)) →
      Application.get_memory_type_go bits properties mts i0 = (true, some (i0 + k)) := by
  intro mts
  induction mts with
  | nil => intro bits i0 k hk; simp at hk
  | cons mem_t rest ih =>
    intro bits i0 k hk hbit hflags hmin
    unfold Application.get_memory_type_go
    match k with
    | 0 =>
      simp only [Nat.shiftRight_zero] at hbit
      simp only [List.getD_cons_zero] at hflags
      rw [if_pos hbit, if_pos hflags]
      simp
    | Nat.succ k =>
      have h0 := hmin 0 (by omega)
      simp only [Nat.shiftRight_zero, List.getD_cons_zero] at h0
      have hbit1 : ((bits >>> 1) >>> k) &&& 1 = 1 := by
        rw [← Nat.shiftRight_add]
        rw [show 1 + k = k + 1 by omega]
        exact hbit
      have hflags1 : (rest.getD k ⟨0⟩).property_flags &&& properties = properties := by
        simpa using hflags
      have hmin1 : ∀ j, j < k →
          ¬(((bits >>> 1) >>> j) &&& 1 = 1 ∧
            (rest.getD j ⟨0⟩).property_flags &&& properties = properties) := by
        intro j hj hc
        apply hmin (j + 1) (by omega)
        refine ⟨?_, by simpa using hc.2⟩
        rw [show j + 1 = 1 + j by omega, Nat.shiftRight_add]
        exact hc.1
      have krec := ih (bits >>> 1) (i0 + 1) k (by simpa using hk) hbit1 hflags1 hmin1
      by_cases hb : bits &&& 1 = 1
      · have hf : ¬(mem_t.property_flags &&& properties = properties) :=
          fun hf => h0 ⟨hb, hf⟩
        rw [if_pos hb, if_neg hf, krec]
        congr 2
        omega
      · rw [if_neg hb, krec]
        congr 2
        omega

/-- C8: get_memory_type returns (True, i) where i is the smallest index
whose bit is set in the mask and whose memory type has all the requested
property flags; when no index qualifies it returns (False, None), so a
caller that takes element [1] of the result without checking element [0]
obtains None as the memory type index. -/
theorem c8_get_memory_type (bits properties : Nat) (mts : List MemoryType) :
    (∀ i, i < mts.length →
      Nat.testBit bits i = true →
      (mts.getD i ⟨0⟩).property_flags &&& properties = properties →
      (∀ j, j < i →
        ¬(Nat.testBit bits j = true ∧
          (mts.getD j ⟨0⟩).property_flags &&& properties = properties)) →
      Application.get_memory_type bits properties mts = (true, some i)) ∧
    ((∀ j, j < mts.length →
        ¬(Nat.testBit bits j = true ∧
          (mts.getD j ⟨0⟩).property_flags &&& properties = properties)) →
      Application.get_memory_type bits properties mts = (false, none) ∧
      memalloc_memory_type_index bits properties mts = none) := by
  constructor
  · intro i hi hbit hflags hmin
    have h := get_memory_type_go_found properties mts bits 0 i hi
      ((testBit_iff_and_one bits i).mp hbit) hflags
      (fun j hj hc => hmin j hj ⟨(testBit_iff_and_one bits j).mpr hc.1, hc.2⟩)
    simpa [Application.get_memory_type] using h
  · intro hnone
    have h := get_memory_type_go_none properties mts bits 0
      (fun j hj hc => hnone j hj ⟨(testBit_iff_and_one bits j).mpr hc.1, hc.2⟩)
    constructor
    · simpa [Application.get_memory_type] using h
    · simp only [memalloc_memory_type_index, Application.get_memory_type] at *
      rw [h]

/-- Witness for c8_get_memory_type: with mask 5 and requested flags 1
over types with flags 2, 1, 1 the first qualifying index is 2 (index 0
has its bit set but lacks the flag, index 1 has the flag but a clear
bit); with mask 2 over a single type with flags 1 nothing qualifies and
the unchecked caller obtains None. -/
theorem c8_witness :
    Application.get_memory_type 5 1 [⟨2⟩, ⟨1⟩, ⟨1⟩] = (true, some 2) ∧
    (Application.get_memory_type 2 1 [⟨1⟩] = (false, none) ∧
      memalloc_memory_type_index 2 1 [⟨1⟩] = none) :=
  ⟨(c8_get_memory_type 5 1 [⟨2⟩, ⟨1⟩, ⟨1⟩]).1 2 (by decide) (by decide) (by decide)
      (by decide),
   (c8_get_memory_type 2 1 [⟨1⟩]).2 (by decide)⟩

/-- C5: for any number k of iterations run while self.running is true,
the render loop performs exactly k draw calls, every draw event is
immediately preceded and followed by a device-idle wait, and after the
loop terminates the trace ends with setting the rendering_done event. -/
theorem c5_render_loop :
    ∀ k : Nat,
      (TriangleApplication.render k).count RenderEvent.draw = k ∧
      (∀ i, (TriangleApplication.render k).get? i = some RenderEvent.draw →
        1 ≤ i ∧
        (TriangleApplication.render k).get? (i - 1) = some RenderEvent.deviceWaitIdle ∧
        (TriangleApplication.render k).get? (i + 1) = some RenderEvent.deviceWaitIdle) ∧
      (∃ pre, TriangleApplication.render k = pre ++ [RenderEvent.renderingDoneSet]) := by
  intro k
  induction k with
  | zero =>
    refine ⟨by decide, ?_, ⟨[], rfl⟩⟩
    intro i h
    rcases i with _ | i
    · simp [TriangleApplication.render] at h
    · simp [TriangleApplication.render] at h
  | succ k ih =>
    obtain ⟨ihc, ihm, pre, ihl⟩ := ih
    refine ⟨?_, ?_, ?_⟩
    · show (RenderEvent.deviceWaitIdle :: RenderEvent.draw ::
          RenderEvent.deviceWaitIdle :: TriangleApplication.render k).count
          RenderEvent.draw = k + 1
      simp [List.count_cons, ihc]
    · intro i h
      rcases i with _ | (_ | (_ | m))
      · simp [TriangleApplication.render] at h
      · refine ⟨by omega, by simp [TriangleApplication.render], ?_⟩
        simp [TriangleApplication.render]
      · simp [TriangleApplication.render] at h
      · have hm : (TriangleApplication.render k).get? m = some RenderEvent.draw := by
          simpa [TriangleApplication.render] using h
        obtain ⟨h1, h2, h3⟩ := ihm m hm
        rcases m with _ | m2
        · omega
        · refine ⟨by omega, ?_, ?_⟩
          · show (RenderEvent.deviceWaitIdle :: RenderEvent.draw ::
                RenderEvent.deviceWaitIdle :: TriangleApplication.render k).get?
                (m2 + 1 + 3 - 1) = some RenderEvent.deviceWaitIdle
            have he : m2 + 1 + 3 - 1 = m2 + 3 := by omega
            rw [he]
            simpa using h2
          · show (RenderEvent.deviceWaitIdle :: RenderEvent.draw ::
                RenderEvent.deviceWaitIdle :: TriangleApplication.render k).get?
                (m2 + 1 + 3 + 1) = some RenderEvent.deviceWaitIdle
            have he : m2 + 1 + 3 + 1 = (m2 + 1 + 1) + 3 := by omega
            rw [he]
            simpa using h3
    · exact ⟨RenderEvent.deviceWaitIdle :: RenderEvent.draw ::
        RenderEvent.deviceWaitIdle :: pre, by
          show RenderEvent.deviceWaitIdle :: RenderEvent.draw ::
            RenderEvent.deviceWaitIdle :: TriangleApplication.render k = _
          rw [ihl]
          rfl⟩

/-- Witness for c5_render_loop at one loop iteration: the draw at index
1 of the single-iteration trace has a device-idle wait on each side. -/
theorem c5_witness :
    1 ≤ 1 ∧
    (TriangleApplication.render 1).get? (1 - 1) = some RenderEvent.deviceWaitIdle ∧
    (TriangleApplication.render 1).get? (1 + 1) = some RenderEvent.deviceWaitIdle :=
  (c5_render_loop 1).2.1 1 (by decide)

/-- C1 counterexample: the claim says every native call has its return
code checked with a raise on non-success, but
TriangleApplication.create_descriptor_pool stores the pool and raises
nothing even when CreateDescriptorPool returns the failure code -1
(VK_ERROR_OUT_OF_HOST_MEMORY). -/
theorem c1_counterexample :
    TriangleApplication.create_descriptor_pool (-1) 7 = (none, some 7) ∧
    (-1 : Int) ≠ SUCCESS :=
  ⟨rfl, by decide⟩

/-- C1 amended: native API calls whose result the code tests raise on
non-success (surface capability query in Swapchain.create; image
acquisition and presentation in draw, the latter by raising a bare
string, a TypeError in Python 3 and still an exception), but
create_descriptor_pool ignores the CreateDescriptorPool result and
create_descriptor_set_layout ignores the CreatePipelineLayout result,
storing the handles and raising nothing on their failure. -/
theorem c1_amended :
    (∀ (d : SwapDriver) (s : SwapchainState), d.caps_result ≠ SUCCESS →
      (Swapchain.create d s).error =
        some (PyErr.runtimeError "Failed to get surface capabilities")) ∧
    (∀ d : DrawDriver, d.acquire_result ≠ SUCCESS →
      TriangleApplication.draw d =
        Except.error (PyErr.exception "Could not aquire next image from swapchain")) ∧
    (∀ d : DrawDriver, d.acquire_result = SUCCESS → d.submit_post_result = SUCCESS →
      d.wait_idle_result = SUCCESS → d.submit_draw_result = SUCCESS →
      d.present_result ≠ SUCCESS →
      TriangleApplication.draw d =
        Except.error (PyErr.raiseStr "Could not render the scene")) ∧
    (∀ (create_pool_result : Int) (pool : Nat),
      TriangleApplication.create_descriptor_pool create_pool_result pool =
        (none, some pool)) ∧
    (∀ d : DSLDriver, d.create_layout_result = SUCCESS →
      TriangleApplication.create_descriptor_set_layout d =
        Except.ok { pipeline_layout := d.pipeline_layout,
                    descriptor_set_layout := d.ds_layout }) := by
  refine ⟨?_, ?_, ?_, fun _ _ => rfl, ?_⟩
  · intro d s h
    rw [Swapchain.create, if_pos h]
  · intro d h
    rw [TriangleApplication.draw, if_pos h]
  · intro d h1 h2 h3 h4 h5
    rw [TriangleApplication.draw, if_neg (by simp [h1]), if_neg (by simp [h2]),
      if_neg (by simp [h3]), if_neg (by simp [h4]), if_pos h5]
  · intro d h
    rw [TriangleApplication.create_descriptor_set_layout, if_neg (by simp [h])]

/-- A driver response where the surface capability query fails. -/
def caps_fail_driver : SwapDriver :=
  { caps_result := 1,
    caps := { min_image_count := 2, max_image_count := 3,
              current_extent := { width := 640, height := 480 },
              supported_transforms := 1, current_transform := 1 },
    prez_result := 0, prez := [], window_width := 800, window_height := 600,
    formats_result := 0, formats := [{ format := 44, color_space := 0 }],
    create_result := 0, new_swapchain := 9,
    get_images_result := 0, get_images_result2 := 0, images := [],
    view_results := [], view_handles := [] }

/-- The Swapchain object state right after __init__: every field None. -/
def fresh_swap_state : SwapchainState :=
  { swapchain := none, images := none, views := none, color_format := none }

/-- Witness for c1_amended at concrete inputs: a failing capability
query, a failing image acquisition, a failing presentation after
successful submits, an ignored descriptor pool failure, and an ignored
pipeline layout failure. -/
theorem c1_witness :
    (Swapchain.create caps_fail_driver fresh_swap_state).error =
      some (PyErr.runtimeError "Failed to get surface capabilities") ∧
    TriangleApplication.draw
        { acquire_result := 1, image_index := 0, submit_post_result := 0,
          wait_idle_result := 0, submit_draw_result := 0, present_result := 0 } =
      Except.error (PyErr.exception "Could not aquire next image from swapchain") ∧
    TriangleApplication.draw
        { acquire_result := 0, image_index := 0, submit_post_result := 0,
          wait_idle_result := 0, submit_draw_result := 0, present_result := 1 } =
      Except.error (PyErr.raiseStr "Could not render the scene") ∧
    TriangleApplication.create_descriptor_pool 3 4 = (none, some 4) ∧
    TriangleApplication.create_descriptor_set_layout
        { create_layout_result := 0, ds_layout := 8,
          create_pipeline_layout_result := 1, pipeline_layout := 9 } =
      Except.ok { pipeline_layout := 9, descriptor_set_layout := 8 } :=
  ⟨c1_amended.1 caps_fail_driver fresh_swap_state (by decide),
   c1_amended.2.1 _ (by decide),
   c1_amended.2.2.1 _ rfl rfl rfl rfl (by decide),
   c1_amended.2.2.2.1 3 4,
   c1_amended.2.2.2.2 _ rfl⟩

/-- Helper: a replicated named call contributes no pipeline creation. -/
theorem countP_replicate_c (name : String) (k : Nat) :
    (List.replicate k (ApiCall.c name)).countP isCreateGraphicsPipelines = 0 :=
  countP_replicate_zero isCreateGraphicsPipelines (ApiCall.c name) rfl k

/-- Helper: the per-image barrier and view creation blocks contribute no
pipeline creation. -/
theorem countP_view_blocks (image_count : Nat) :
    ((List.range image_count).flatMap
      (fun _ => set_image_layout_calls ++ [ApiCall.c "CreateImageView"])).countP
      isCreateGraphicsPipelines = 0 := by
  rw [countP_flatMap_const isCreateGraphicsPipelines
    (fun _ => set_image_layout_calls ++ [ApiCall.c "CreateImageView"]) 0
    (fun _ => rfl) (List.range image_count)]
  simp

/-- Helper: no pipeline creation among the swapchain creation calls. -/
theorem countP_swapchain_create_calls (old_views : Option Nat) (image_count : Nat) :
    (swapchain_create_calls old_views image_count).countP isCreateGraphicsPipelines
      = 0 := by
  unfold swapchain_create_calls
  rcases old_views with _ | k <;>
    · simp only [List.countP_append, countP_view_blocks, countP_replicate_c]
      decide

/-- Helper: no pipeline creation among the device creation calls. -/
theorem countP_create_device_calls (probed_families : Nat) :
    (create_device_calls probed_families).countP isCreateGraphicsPipelines = 0 := by
  unfold create_device_calls
  simp only [List.countP_append, countP_replicate_c]
  decide

/-- Helper: no pipeline creation among the depth stencil calls. -/
theorem countP_create_depth_stencil_calls (probed_formats : Nat) :
    (create_depth_stencil_calls probed_formats).countP isCreateGraphicsPipelines
      = 0 := by
  unfold create_depth_stencil_calls
  simp only [List.countP_append, countP_replicate_c]
  decide

/-- Helper: no pipeline creation among the framebuffer calls. -/
theorem countP_create_framebuffers_calls (image_count : Nat) :
    (create_framebuffers_calls image_count).countP isCreateGraphicsPipelines = 0 :=
  countP_replicate_c "CreateFramebuffer" image_count

/-- Helper: no pipeline creation among the command buffer recording
calls. -/
theorem countP_init_command_buffers_calls (image_count : Nat) :
    (init_command_buffers_calls image_count).countP isCreateGraphicsPipelines = 0 := by
  unfold init_command_buffers_calls
  rw [List.countP_append,
    countP_flatMap_const isCreateGraphicsPipelines
      (fun _ => [ApiCall.c "BeginCommandBuffer", ApiCall.c "CmdPipelineBarrier",
                 ApiCall.c "EndCommandBuffer"]) 0 (fun _ => rfl)
      (List.range image_count),
    countP_flatMap_const isCreateGraphicsPipelines
      (fun _ => [ApiCall.c "BeginCommandBuffer", ApiCall.c "CmdBeginRenderPass",
                 ApiCall.c "CmdSetViewport", ApiCall.c "CmdSetScissor",
                 ApiCall.c "CmdBindDescriptorSets", ApiCall.c "CmdBindPipeline",
                 ApiCall.c "CmdBindVertexBuffers", ApiCall.c "CmdBindIndexBuffer",
                 ApiCall.c "CmdDrawIndexed", ApiCall.c "CmdEndRenderPass",
                 ApiCall.c "CmdPipelineBarrier", ApiCall.c "EndCommandBuffer"]) 0
      (fun _ => rfl) (List.range image_count)]
  simp

/-- Helper: no pipeline creation during the Application initializer. -/
theorem countP_application_init_calls (probed_families probed_formats image_count : Nat) :
    (application_init_calls probed_families probed_formats image_count).countP
      isCreateGraphicsPipelines = 0 := by
  unfold application_init_calls
  simp only [List.countP_append, countP_swapchain_create_calls,
    countP_create_device_calls, countP_create_depth_stencil_calls,
    countP_create_framebuffers_calls]
  decide

/-- Helper: exactly one pipeline creation during the TriangleApplication
initializer, the one in create_pipeline. -/
theorem countP_triangle_init_calls (probed_families probed_formats image_count : Nat) :
    (triangle_init_calls probed_families probed_formats image_count).countP
      isCreateGraphicsPipelines = 1 := by
  unfold triangle_init_calls
  simp only [List.countP_append, countP_application_init_calls,
    countP_init_command_buffers_calls]
  decide

/-- Helper: no pipeline creation during a render iteration. -/
theorem countP_render_iteration_calls :
    render_iteration_calls.countP isCreateGraphicsPipelines = 0 := by
  decide

/-- Helper: no pipeline creation during a display resize. -/
theorem countP_resize_display_calls
    (old_views old_framebuffers probed_formats image_count : Nat) :
    (resize_display_calls old_views old_framebuffers probed_formats image_count).countP
      isCreateGraphicsPipelines = 0 := by
  unfold resize_display_calls
  simp only [List.countP_append, countP_swapchain_create_calls,
    countP_create_depth_stencil_calls, countP_create_framebuffers_calls,
    countP_init_command_buffers_calls, countP_replicate_c]
  decide

/-- Helper: the resize passes of a run contribute no pipeline creation. -/
theorem countP_resizes_flatMap (resizes : List (Nat × Nat × Nat × Nat)) :
    (resizes.flatMap (fun r => resize_display_calls r.1 r.2.1 r.2.2.1 r.2.2.2)).countP
      isCreateGraphicsPipelines = 0 := by
  induction resizes with
  | nil => simp
  | cons r rest ih =>
    rw [List.flatMap_cons, List.countP_append, ih, countP_resize_display_calls]

/-- C4: initialization builds a single graphics pipeline: create_pipeline
issues exactly one CreateGraphicsPipelines call, with a create-info count
of 1, storing the one resulting handle on success; and across a complete
program run (any number of probed families and formats, swapchain
images, frames, and resizes) the total number of CreateGraphicsPipelines
calls is 1. -/
theorem c4_single_pipeline :
    (create_pipeline_calls.countP isCreateGraphicsPipelines = 1 ∧
      ApiCall.createGraphicsPipelines 1 ∈ create_pipeline_calls) ∧
    (∀ handle : Nat,
      TriangleApplication.create_pipeline SUCCESS handle = Except.ok handle) ∧
    (∀ (probed_families probed_formats image_count frames : Nat)
        (resizes : List (Nat × Nat × Nat × Nat)),
      (program_calls probed_families probed_formats image_count frames resizes).countP
        isCreateGraphicsPipelines = 1) := by
  refine ⟨⟨by decide, by decide⟩, fun handle => rfl, ?_⟩
  intro probed_families probed_formats image_count frames resizes
  unfold program_calls
  rw [List.countP_append, List.countP_append,
    countP_triangle_init_calls,
    countP_flatMap_const isCreateGraphicsPipelines (fun _ => render_iteration_calls) 0
      (fun _ => countP_render_iteration_calls) (List.range frames),
    countP_resizes_flatMap resizes]
  simp

/-- Helper: create_images never touches the stored swapchain handle. -/
theorem create_images_swapchain (d : SwapDriver) (req : Nat) (s : SwapchainState) :
    (Swapchain.create_images d req s).2.swapchain = s.swapchain := by
  by_cases h1 : d.get_images_result ≠ SUCCESS ∧ req ≠ d.images.length
  · simp [Swapchain.create_images, h1]
  · by_cases h2 : d.get_images_result2 ≠ SUCCESS
    · simp [Swapchain.create_images, h1, h2]
    · simp [Swapchain.create_images, h1, h2]

/-- C7: Swapchain.create obtains its swapchain handle only from the
driver via CreateSwapchainKHR: when that call fails, create raises and
the stored swapchain, images and views fields are unchanged; when it
succeeds with a previously stored swapchain, the old views and handle
are destroyed before the new driver-returned handle is stored. -/
theorem c7_swapchain_create :
    (∀ (d : SwapDriver) (s : SwapchainState) (f0 : SurfaceFormatKHR)
        (rest : List SurfaceFormatKHR),
      d.caps_result = SUCCESS →
      ¬(d.prez_result ≠ SUCCESS ∧ 0 < d.prez.length) →
      ¬(d.formats_result ≠ SUCCESS ∧ 0 < d.formats.length) →
      d.formats = f0 :: rest →
      d.create_result ≠ SUCCESS →
      (Swapchain.create d s).error =
        some (PyErr.runtimeError "Failed to create the swapchain") ∧
      (Swapchain.create d s).state.swapchain = s.swapchain ∧
      (Swapchain.create d s).state.images = s.images ∧
      (Swapchain.create d s).state.views = s.views) ∧
    (∀ (d : SwapDriver) (s : SwapchainState) (f0 : SurfaceFormatKHR)
        (rest : List SurfaceFormatKHR) (old : Nat) (vs : List Nat),
      d.caps_result = SUCCESS →
      ¬(d.prez_result ≠ SUCCESS ∧ 0 < d.prez.length) →
      ¬(d.formats_result ≠ SUCCESS ∧ 0 < d.formats.length) →
      d.formats = f0 :: rest →
      d.create_result = SUCCESS →
      s.swapchain = some old →
      s.views = some vs →
      (Swapchain.create d s).state.swapchain = some d.new_swapchain ∧
      (Swapchain.create d s).events =
        vs.map SwapEvent.destroyImageView ++
          [SwapEvent.destroySwapchainKHR old,
           SwapEvent.storeSwapchain d.new_swapchain]) := by
  constructor
  · intro d s f0 rest hcaps hprez hform hf hcr
    rw [Swapchain.create, if_neg (by simp [hcaps]), if_neg hprez, if_neg hform]
    simp only [hf, selectColorFormat_cons]
    rw [if_neg hcr]
    exact ⟨rfl, rfl, rfl, rfl⟩
  · intro d s f0 rest old vs hcaps hprez hform hf hcr hold hviews
    rw [Swapchain.create, if_neg (by simp [hcaps]), if_neg hprez, if_neg hform]
    simp only [hf, selectColorFormat_cons]
    rw [if_pos hcr]
    simp only [hold]
    have hdes : Swapchain.destroy_swapchain
        { swapchain := some old, images := s.images, views := s.views,
          color_format := some f0.format } =
        (none, vs.map SwapEvent.destroyImageView ++
          [SwapEvent.destroySwapchainKHR old]) := by
      simp [Swapchain.destroy_swapchain, hviews]
    rw [hdes]
    simp [create_images_swapchain]

/-- A driver response whose CreateSwapchainKHR call fails after every
query succeeded. -/
def create_fail_driver : SwapDriver :=
  { caps_fail_driver with caps_result := 0, create_result := 1 }

/-- A driver response whose CreateSwapchainKHR call succeeds. -/
def create_ok_driver : SwapDriver :=
  { caps_fail_driver with caps_result := 0, create_result := 0 }

/-- A Swapchain object state holding a previously created swapchain with
one image and one view. -/
def used_swap_state : SwapchainState :=
  { swapchain := some 3, images := some [7], views := some [5], color_format := none }

/-- Witness for c7_swapchain_create at concrete inputs: with a failing
CreateSwapchainKHR the stored fields survive untouched; with a
successful one the old view 5 and swapchain 3 are destroyed before the
driver-returned handle 9 is stored. -/
theorem c7_witness :
    ((Swapchain.create create_fail_driver used_swap_state).error =
        some (PyErr.runtimeError "Failed to create the swapchain") ∧
      (Swapchain.create create_fail_driver used_swap_state).state.swapchain = some 3 ∧
      (Swapchain.create create_fail_driver used_swap_state).state.images = some [7] ∧
      (Swapchain.create create_fail_driver used_swap_state).state.views = some [5]) ∧
    ((Swapchain.create create_ok_driver used_swap_state).state.swapchain = some 9 ∧
      (Swapchain.create create_ok_driver used_swap_state).events =
        [SwapEvent.destroyImageView 5, SwapEvent.destroySwapchainKHR 3,
         SwapEvent.storeSwapchain 9]) :=
  ⟨c7_swapchain_create.1 create_fail_driver used_swap_state ⟨44, 0⟩ [] rfl
      (by decide) (by decide) rfl (by decide),
   c7_swapchain_create.2 create_ok_driver used_swap_state ⟨44, 0⟩ [] 3 [5] rfl
      (by decide) (by decide) rfl rfl rfl rfl⟩
